import Mathlib

/-!
Verification of the transport core of the D-Bus fork in this repository
(src/dbus/dbus-transport.c and src/dbus/dbus-memory.c).

The C code is embedded shallowly: the transport struct becomes a Lean
structure, and the external collaborators (the Auth engine, the message
loader internals, the live-bytes counter backend and the OS allocator)
are abstracted as explicit oracle/environment records that each call
consumes, exactly at the call sites where the C code consults them.
Every control-flow branch of the embedded functions mirrors the C source
line by line.
-/

namespace DBus

/-- Dispatch status codes (DBusDispatchStatus); the transport reports one
of these from get_dispatch_status. -/
inductive DBusDispatchStatus where
  | DATA_REMAINS
  | COMPLETE
  | NEED_MEMORY
deriving DecidableEq

/-- Auth engine states (DBusAuthState, dbus-auth.h). dbus-transport.c only
distinguishes AUTHENTICATED and WAITING_FOR_MEMORY from the rest. -/
inductive DBusAuthState where
  | WAITING_FOR_INPUT
  | WAITING_FOR_MEMORY
  | HAVE_BYTES_TO_SEND
  | NEED_DISCONNECT
  | AUTHENTICATED
deriving DecidableEq

/-- The fields of struct DBusTransport (dbus-transport-protected.h) that
dbus-transport.c reads or writes.  The loader, auth engine and counter are
owned collaborators modelled separately; the connection back-reference and
the unix_user_function pointer are modelled by presence
(Option Nat / Bool). -/
structure DBusTransport where
  refcount : Nat
  connection : Option Nat
  authenticated : Bool
  disconnected : Bool
  is_server : Bool
  send_credentials_pending : Bool
  receive_credentials_pending : Bool
  address : Option String
  expected_guid : Option String
  unused_bytes_recovered : Bool
  max_live_messages_size : Nat
  has_unix_user_function : Bool
  cred_pid : Int
  cred_uid : Int
  cred_gid : Int
deriving DecidableEq

/-- Translation of _dbus_transport_disconnect (dbus-transport.c:450-465):
idempotent, first call invokes the backend hook and sets disconnected. -/
def _dbus_transport_disconnect (t : DBusTransport) : DBusTransport :=
  if t.disconnected then t else { t with disconnected := true }

/-- Translation of _dbus_transport_get_is_connected
(dbus-transport.c:475-479). -/
def _dbus_transport_get_is_connected (t : DBusTransport) : Bool :=
  !t.disconnected

/-- Responses of the external collaborators consulted during one call of
_dbus_transport_get_is_authenticated: the result of _dbus_auth_do_work,
the server GUID reported by the auth engine (non-NULL per the assert at
dbus-transport.c:536), whether the _dbus_strdup of that GUID succeeds,
the verdict of the application-supplied unix_user_function, the result of
_dbus_credentials_match, and whether the build is a Windows build. -/
structure AuthOracle where
  do_work : DBusAuthState
  server_guid : String
  strdup_ok : Bool
  unix_allow : Bool
  creds_match : Bool
  on_windows : Bool
deriving DecidableEq

/-- Result of one call of _dbus_transport_get_is_authenticated: the return
value, the transport afterwards, and the number of
_dbus_connection_ref_unlocked / _dbus_connection_unref_unlocked calls
made on the connection (the paranoid reference of dbus-transport.c:513). -/
structure IsAuthResult where
  ret : Bool
  t : DBusTransport
  conn_refs : Nat
  conn_unrefs : Nat
deriving DecidableEq

/-- Translation of lines 560-639 of _dbus_transport_get_is_authenticated:
the server-side identity check followed by the common tail
(authenticated := maybe_authenticated; unref; return).  Reached after the
client-side GUID block with maybe_authenticated = maybe.  The conn_refs
field records the single paranoid ref taken at entry (line 513). -/
def is_authenticated_server_check (t : DBusTransport) (maybe : Bool)
    (o : AuthOracle) : IsAuthResult :=
  if maybe && t.is_server then
    if t.has_unix_user_function && !o.on_windows then
      if o.unix_allow then
        { ret := maybe, t := { t with authenticated := maybe },
          conn_refs := 1, conn_unrefs := 1 }
      else
        { ret := false, t := _dbus_transport_disconnect t,
          conn_refs := 1, conn_unrefs := 1 }
    else
      if !o.creds_match then
        { ret := false, t := _dbus_transport_disconnect t,
          conn_refs := 1, conn_unrefs := 1 }
      else
        { ret := maybe, t := { t with authenticated := maybe },
          conn_refs := 1, conn_unrefs := 1 }
  else
    { ret := maybe, t := { t with authenticated := maybe },
      conn_refs := 1, conn_unrefs := 1 }

/-- Translation of lines 515-529 of _dbus_transport_get_is_authenticated:
maybe_authenticated is true when neither credential exchange is pending
and _dbus_auth_do_work reports AUTHENTICATED. -/
def maybe_authenticated_after_work (t : DBusTransport)
    (o : AuthOracle) : Bool :=
  let maybe1 : Bool :=
    !(t.send_credentials_pending || t.receive_credentials_pending)
  if maybe1 then
    match o.do_work with
    | DBusAuthState.AUTHENTICATED => maybe1
    | _ => false
  else maybe1

/-- Translation of _dbus_transport_get_is_authenticated
(dbus-transport.c:491-641).  Mirrors the C control flow: early return when
already authenticated or disconnected; paranoid connection ref; the
maybe_authenticated computation above; the client-side GUID check
(disconnect on mismatch; strdup of the server GUID when expected_guid is
NULL, with the early FALSE return on strdup failure at line 555 which
performs no connection unref); then the server-side check and common
tail. -/
def _dbus_transport_get_is_authenticated (t : DBusTransport)
    (o : AuthOracle) : IsAuthResult :=
  if t.authenticated then
    { ret := true, t := t, conn_refs := 0, conn_unrefs := 0 }
  else if t.disconnected then
    { ret := false, t := t, conn_refs := 0, conn_unrefs := 0 }
  else
    if maybe_authenticated_after_work t o && !t.is_server then
      match t.expected_guid with
      | some g =>
          if g ≠ o.server_guid then
            { ret := false, t := _dbus_transport_disconnect t,
              conn_refs := 1, conn_unrefs := 1 }
          else
            is_authenticated_server_check t
              (maybe_authenticated_after_work t o) o
      | none =>
          if o.strdup_ok then
            is_authenticated_server_check
              { t with expected_guid := some o.server_guid }
              (maybe_authenticated_after_work t o) o
          else
            { ret := false, t := t, conn_refs := 1, conn_unrefs := 0 }
    else
      is_authenticated_server_check t (maybe_authenticated_after_work t o) o

/-- The state of the owned DBusMessageLoader that dbus-transport.c
observes: the queue of loaded messages (by byte size, peeked or popped as
links) and the corruption flag. -/
structure Loader where
  messages : List Nat
  corrupted : Bool
deriving DecidableEq

/-- Responses of the collaborators consulted during one call of
_dbus_transport_get_dispatch_status: the live counter value read at line
884, the oracles for the two _dbus_transport_get_is_authenticated calls
(lines 887 and 892), the _dbus_auth_do_work result at line 889, the
success of recover_unused_bytes (which moves the trailing bytes of the auth engine
bytes into the loader buffer and fails only on OOM,
dbus-transport.c:785-872), and the effect of
_dbus_message_loader_queue_messages at line 902: whether it succeeds,
which message sizes it appends to the loader queue, and whether it marks
the stream corrupted. -/
structure DispatchEnv where
  counter_value : Nat
  auth1 : AuthOracle
  mid_do_work : DBusAuthState
  auth2 : AuthOracle
  recover_ok : Bool
  queue_ok : Bool
  new_messages : List Nat
  corrupts : Bool
deriving DecidableEq

/-- Result of one call of _dbus_transport_get_dispatch_status. -/
structure DispatchResult where
  status : DBusDispatchStatus
  t : DBusTransport
  loader : Loader
deriving DecidableEq

/-- Effect of _dbus_message_loader_queue_messages on the loader state:
newly framed messages are appended to the queue and the corruption flag
may be raised.  The success of the call is e.queue_ok. -/
def loader_queue_messages (l : Loader) (e : DispatchEnv) : Loader :=
  { messages := l.messages ++ e.new_messages,
    corrupted := l.corrupted || e.corrupts }

/-- Translation of lines 896-908 of _dbus_transport_get_dispatch_status:
unused-bytes recovery (guarded by the unused_bytes_recovered flag),
setting the flag, asking the loader to queue messages, and the final
peek. -/
def dispatch_status_tail (t : DBusTransport) (l : Loader)
    (e : DispatchEnv) : DispatchResult :=
  if !t.unused_bytes_recovered && !e.recover_ok then
    { status := DBusDispatchStatus.NEED_MEMORY, t := t, loader := l }
  else
    if !e.queue_ok then
      { status := DBusDispatchStatus.NEED_MEMORY,
        t := { t with unused_bytes_recovered := true },
        loader := loader_queue_messages l e }
    else if (loader_queue_messages l e).messages ≠ [] then
      { status := DBusDispatchStatus.DATA_REMAINS,
        t := { t with unused_bytes_recovered := true },
        loader := loader_queue_messages l e }
    else
      { status := DBusDispatchStatus.COMPLETE,
        t := { t with unused_bytes_recovered := true },
        loader := loader_queue_messages l e }

/-- Translation of _dbus_transport_get_dispatch_status
(dbus-transport.c:881-909).  Note both _dbus_transport_get_is_authenticated
calls are the full (mutating) procedure, and _dbus_auth_do_work is run once
between them. -/
def _dbus_transport_get_dispatch_status (t : DBusTransport) (l : Loader)
    (e : DispatchEnv) : DispatchResult :=
  if t.max_live_messages_size ≤ e.counter_value then
    { status := DBusDispatchStatus.COMPLETE, t := t, loader := l }
  else
    if !(_dbus_transport_get_is_authenticated t e.auth1).ret then
      if e.mid_do_work = DBusAuthState.WAITING_FOR_MEMORY then
        { status := DBusDispatchStatus.NEED_MEMORY,
          t := (_dbus_transport_get_is_authenticated t e.auth1).t,
          loader := l }
      else
        if !(_dbus_transport_get_is_authenticated
              (_dbus_transport_get_is_authenticated t e.auth1).t
              e.auth2).ret then
          { status := DBusDispatchStatus.COMPLETE,
            t := (_dbus_transport_get_is_authenticated
                    (_dbus_transport_get_is_authenticated t e.auth1).t
                    e.auth2).t,
            loader := l }
        else
          dispatch_status_tail
            (_dbus_transport_get_is_authenticated
              (_dbus_transport_get_is_authenticated t e.auth1).t
              e.auth2).t l e
    else
      dispatch_status_tail
        (_dbus_transport_get_is_authenticated t e.auth1).t l e

/-- Modelled from the spec: the five-bullet dispatch-status algorithm of
spec section 4.4, written as a chain of early-exit steps, to be compared
with the translation of the source.  Bullet 1: live counter at the
threshold means COMPLETE.  Bullet 2: when not authenticated, step the
Auth once, NEED_MEMORY if it waits for memory, COMPLETE if still not
authenticated.  Bullet 3: unused-bytes recovery, NEED_MEMORY on failure,
set the flag on success.  Bullet 4: loader queueing, NEED_MEMORY on
failure.  Bullet 5: DATA_REMAINS exactly when a message can be peeked. -/
def dispatch_status_spec (t : DBusTransport) (l : Loader)
    (e : DispatchEnv) : DispatchResult :=
  let step1 : Except DispatchResult DBusTransport :=
    if t.max_live_messages_size ≤ e.counter_value then
      Except.error { status := DBusDispatchStatus.COMPLETE, t := t, loader := l }
    else Except.ok t
  let step2 : Except DispatchResult DBusTransport := step1.bind fun t0 =>
    let a1 := _dbus_transport_get_is_authenticated t0 e.auth1
    if a1.ret then Except.ok a1.t
    else if e.mid_do_work = DBusAuthState.WAITING_FOR_MEMORY then
      Except.error
        { status := DBusDispatchStatus.NEED_MEMORY, t := a1.t, loader := l }
    else
      let a2 := _dbus_transport_get_is_authenticated a1.t e.auth2
      if a2.ret then Except.ok a2.t
      else Except.error
        { status := DBusDispatchStatus.COMPLETE, t := a2.t, loader := l }
  let step3 : Except DispatchResult DBusTransport := step2.bind fun t0 =>
    if t0.unused_bytes_recovered = false ∧ e.recover_ok = false then
      Except.error
        { status := DBusDispatchStatus.NEED_MEMORY, t := t0, loader := l }
    else Except.ok { t0 with unused_bytes_recovered := true }
  let step4 : Except DispatchResult (DBusTransport × Loader) :=
    step3.bind fun t0 =>
      let l1 := loader_queue_messages l e
      if e.queue_ok = false then
        Except.error
          { status := DBusDispatchStatus.NEED_MEMORY, t := t0, loader := l1 }
      else Except.ok (t0, l1)
  match step4 with
  | Except.error r => r
  | Except.ok (t0, l1) =>
      if l1.messages = [] then
        { status := DBusDispatchStatus.COMPLETE, t := t0, loader := l1 }
      else
        { status := DBusDispatchStatus.DATA_REMAINS, t := t0, loader := l1 }

/-- Per-iteration environment of the _dbus_transport_queue_messages loop:
the dispatch environment for the get_dispatch_status call heading the
iteration, and whether _dbus_message_add_size_counter succeeds for the
popped message. -/
structure QueueEnv where
  denv : DispatchEnv
  counter_add_ok : Bool
deriving DecidableEq

/-- Result of _dbus_transport_queue_messages: the boolean return value,
the final dispatch status computed by the loop, the transport and loader
afterwards, and the inbound queue of the connection (message sizes, in
delivery order). -/
structure QueueMessagesResult where
  ret : Bool
  status : DBusDispatchStatus
  t : DBusTransport
  loader : Loader
  conn_queue : List Nat
deriving DecidableEq

/-- Translation of the while loop of _dbus_transport_queue_messages
(dbus-transport.c:929-954).  Each iteration calls get_dispatch_status;
while it reports DATA_REMAINS the head message link is popped
(the assert at line 935 guarantees it exists; the inner nil case is
unreachable, see queue_messages_loop_pop_safe), the size counter is
attached, and on success the link is handed to the connection; on
counter failure the link is put back and the loop breaks with status
NEED_MEMORY.  The environment list supplies one entry per iteration;
an exhausted environment ends the trace with status COMPLETE (no more
data arrives). -/
def queue_messages_loop (t : DBusTransport) (l : Loader)
    (conn : List Nat) :
    List QueueEnv → DBusDispatchStatus × DBusTransport × Loader × List Nat
  | [] => (DBusDispatchStatus.COMPLETE, t, l, conn)
  | e :: rest =>
      let r := _dbus_transport_get_dispatch_status t l e.denv
      if r.status = DBusDispatchStatus.DATA_REMAINS then
        match r.loader.messages with
        | [] => (r.status, r.t, r.loader, conn)
        | m :: ms =>
            if e.counter_add_ok then
              queue_messages_loop r.t { r.loader with messages := ms }
                (conn ++ [m]) rest
            else
              (DBusDispatchStatus.NEED_MEMORY, r.t, r.loader, conn)
      else
        (r.status, r.t, r.loader, conn)

/-- Translation of _dbus_transport_queue_messages
(dbus-transport.c:919-963): run the loop, then disconnect if the loader
reports corruption, and return (status has not become NEED_MEMORY). -/
def _dbus_transport_queue_messages (t : DBusTransport) (l : Loader)
    (conn : List Nat) (envs : List QueueEnv) : QueueMessagesResult :=
  let r := queue_messages_loop t l conn envs
  let t1 := if r.2.2.1.corrupted then _dbus_transport_disconnect r.2.1
            else r.2.1
  { ret := decide (r.1 ≠ DBusDispatchStatus.NEED_MEMORY),
    status := r.1, t := t1, loader := r.2.2.1, conn_queue := r.2.2.2 }

/-- Success of the sub-constructions attempted by
_dbus_transport_init_base: _dbus_message_loader_new, the auth
constructor, _dbus_counter_new, and _dbus_string_copy_data of the
address. -/
structure InitEnv where
  loader_ok : Bool
  auth_ok : Bool
  counter_ok : Bool
  copy_ok : Bool
deriving DecidableEq

/-- The resources _dbus_transport_init_base acquires before filling in
the transport fields. -/
inductive Resource where
  | loader
  | auth
  | counter
deriving DecidableEq

/-- Result of _dbus_transport_init_base: the boolean return, the
transport afterwards (the caller-supplied struct, written only on
success), the resources acquired in acquisition order, and the resources
released on the failure paths in release order. -/
structure InitResult where
  ok : Bool
  t : DBusTransport
  acquired : List Resource
  released : List Resource
deriving DecidableEq

/-- Translation of _dbus_transport_init_base (dbus-transport.c:91-178).
The pre-state is the uninitialised struct of the caller; each failure path
returns it untouched after unreffing exactly the resources built so far,
in reverse acquisition order.  On success every field listed at lines
142-167 is assigned (unused_bytes_recovered and connection are not
assigned by this function; the concrete backend zero-allocates the
struct). -/
def _dbus_transport_init_base (pre : DBusTransport)
    (server_guid : Option String) (address : Option String)
    (e : InitEnv) : InitResult :=
  if !e.loader_ok then
    { ok := false, t := pre, acquired := [], released := [] }
  else if !e.auth_ok then
    { ok := false, t := pre, acquired := [Resource.loader],
      released := [Resource.loader] }
  else if !e.counter_ok then
    { ok := false, t := pre, acquired := [Resource.loader, Resource.auth],
      released := [Resource.auth, Resource.loader] }
  else if server_guid.isNone && !e.copy_ok then
    { ok := false, t := pre,
      acquired := [Resource.loader, Resource.auth, Resource.counter],
      released := [Resource.counter, Resource.auth, Resource.loader] }
  else
    { ok := true,
      t := { pre with
              refcount := 1,
              authenticated := false,
              disconnected := false,
              is_server := server_guid.isSome,
              send_credentials_pending := !server_guid.isSome,
              receive_credentials_pending := server_guid.isSome,
              address := if server_guid.isSome then none else address,
              has_unix_user_function := false,
              expected_guid := none,
              max_live_messages_size := 1048576 * 63,
              cred_pid := -1, cred_uid := -1, cred_gid := -1 },
      acquired := [Resource.loader, Resource.auth, Resource.counter],
      released := [] }

/-- Translation of _dbus_transport_set_connection
(dbus-transport.c:703-718).  The asserts require a connection_set hook
and a NULL connection field; success of the hook is given by hook_ok.
Returns the boolean result and the transport afterwards. -/
def _dbus_transport_set_connection (t : DBusTransport) (connection : Nat)
    (hook_ok : Bool) : Bool × DBusTransport :=
  if hook_ok then
    (({ t with connection := some connection } :
        DBusTransport).connection.isSome,
     { t with connection := some connection })
  else
    (({ t with connection := none } : DBusTransport).connection.isSome,
     { t with connection := none })

/-- The backend factories listed in the open_funcs array
(dbus-transport.c:308-319), identified by position:
_dbus_transport_open_socket, _dbus_transport_open_platform_specific,
_dbus_transport_open_autolaunch and, under DBUS_BUILD_TESTS,
_dbus_transport_open_debug_pipe. -/
inductive FactoryId where
  | socket
  | platformSpecific
  | autolaunch
  | debugPipe
deriving DecidableEq

/-- Translation of the open_funcs array (dbus-transport.c:308-319); the
debug-pipe entry is compiled in only when DBUS_BUILD_TESTS is defined. -/
def open_funcs (build_tests : Bool) : List FactoryId :=
  [FactoryId.socket, FactoryId.platformSpecific, FactoryId.autolaunch]
    ++ (if build_tests then [FactoryId.debugPipe] else [])

/-- Outcome of one backend factory on the address entry
(DBusTransportOpenResult): OK with the constructed transport, not
handled, or one of the two error results carrying the error it set
(error contents abstracted as a code). -/
inductive FactoryOutcome where
  | OK (t : DBusTransport)
  | NOT_HANDLED
  | BAD_ADDRESS (err : Nat)
  | DID_NOT_CONNECT (err : Nat)
deriving DecidableEq

/-- Errors surfaced by _dbus_transport_open: OOM from the guid strdup,
the error set by a factory, or the synthesised bad-address error of
line 385 whose message names the valid method types. -/
inductive OpenError where
  | noMemory
  | factoryError (err : Nat)
  | badAddressUnknownType
deriving DecidableEq

/-- Translation of the for loop of _dbus_transport_open
(dbus-transport.c:352-378) over the factory outcomes in open_funcs
order: OK stops with the transport, NOT_HANDLED continues, BAD_ADDRESS
and DID_NOT_CONNECT stop with the error set by the factory; none left means
transport NULL with no error set. -/
def transport_open_loop :
    List FactoryOutcome → Option DBusTransport × Option Nat
  | [] => (none, none)
  | FactoryOutcome.OK t :: _ => (some t, none)
  | FactoryOutcome.NOT_HANDLED :: rest => transport_open_loop rest
  | FactoryOutcome.BAD_ADDRESS err :: _ => (none, some err)
  | FactoryOutcome.DID_NOT_CONNECT err :: _ => (none, some err)

/-- Translation of _dbus_transport_open (dbus-transport.c:329-400).
guid_param is the "guid" value of the entry, strdup_ok whether its _dbus_strdup
succeeds, and outcome gives the result of each factory on this entry.  On a
NULL transport the error (set by a factory, or the synthesised bad-address
error) is surfaced; otherwise the duplicated guid is stored as
expected_guid. -/
def _dbus_transport_open (build_tests : Bool)
    (guid_param : Option String) (strdup_ok : Bool)
    (outcome : FactoryId → FactoryOutcome) :
    Except OpenError DBusTransport :=
  if guid_param.isSome && !strdup_ok then
    Except.error OpenError.noMemory
  else
    match transport_open_loop ((open_funcs build_tests).map outcome) with
    | (some t, _) => Except.ok { t with expected_guid := guid_param }
    | (none, some err) => Except.error (OpenError.factoryError err)
    | (none, none) => Except.error OpenError.badAddressUnknownType

/-- The process-wide debug-allocator state of dbus-memory.c (test
builds): fail_counts and fail_alloc_counter are C ints, fail_size a
size_t, guards the DBUS_MALLOC_GUARDS flag. -/
structure MallocState where
  fail_counts : Int
  fail_alloc_counter : Int
  fail_size : Nat
  guards : Bool
deriving DecidableEq

/-- The value of _DBUS_INT_MAX used to disarm the fail counter. -/
def DBUS_INT_MAX : Int := 2147483647

/-- Translation of _dbus_decrement_fail_alloc_counter
(dbus-memory.c:184-205): when the counter has reached zero the alloc
fails and the counter rearms to fail_counts (or to _DBUS_INT_MAX when no
DBUS_MALLOC_FAIL_NTH was given); otherwise it decrements and the alloc
proceeds. -/
def _dbus_decrement_fail_alloc_counter (s : MallocState) :
    Bool × MallocState :=
  if s.fail_alloc_counter ≤ 0 then
    (true,
     { s with fail_alloc_counter :=
        if 0 ≤ s.fail_counts then s.fail_counts else DBUS_INT_MAX })
  else
    (false, { s with fail_alloc_counter := s.fail_alloc_counter - 1 })

/-- Translation of the state _dbus_initialize_malloc_debug
(dbus-memory.c:97-130) produces when DBUS_MALLOC_FAIL_NTH is set to n
and the other debug variables are unset: fail_counts := n and
fail_alloc_counter := n. -/
def malloc_debug_state_fail_nth (n : Int) : MallocState :=
  { fail_counts := n, fail_alloc_counter := n, fail_size := 0,
    guards := false }

/-- Result of one public allocator call: the returned block (none models
NULL, some b a usable block of the b requested bytes), whether the
request was passed through to the underlying libc allocator, whether
dbus_free was invoked on the input block (dbus_realloc only), and the
debug state afterwards.  The underlying libc allocator is modelled as
always succeeding. -/
structure AllocResult where
  ret : Option Nat
  passed_through : Bool
  free_called : Bool
  state : MallocState
deriving DecidableEq

/-- Translation of dbus_malloc (dbus-memory.c:340-369).  build_tests
selects the DBUS_BUILD_TESTS compilation: the fail-counter and fail-size
checks and the guard mode exist only there.  The zero-byte check returns
NULL before reaching the underlying allocator on every build. -/
def dbus_malloc (build_tests : Bool) (s : MallocState) (bytes : Nat) :
    AllocResult :=
  let d := if build_tests then _dbus_decrement_fail_alloc_counter s
           else (false, s)
  if d.1 then
    { ret := none, passed_through := false, free_called := false,
      state := d.2 }
  else if bytes = 0 then
    { ret := none, passed_through := false, free_called := false,
      state := d.2 }
  else if build_tests && (d.2.fail_size ≠ 0 && decide (d.2.fail_size < bytes)) then
    { ret := none, passed_through := false, free_called := false,
      state := d.2 }
  else
    { ret := some bytes, passed_through := true, free_called := false,
      state := d.2 }

/-- Translation of dbus_malloc0 (dbus-memory.c:380-409); the same shape
as dbus_malloc with calloc as the underlying allocator. -/
def dbus_malloc0 (build_tests : Bool) (s : MallocState) (bytes : Nat) :
    AllocResult :=
  let d := if build_tests then _dbus_decrement_fail_alloc_counter s
           else (false, s)
  if d.1 then
    { ret := none, passed_through := false, free_called := false,
      state := d.2 }
  else if bytes = 0 then
    { ret := none, passed_through := false, free_called := false,
      state := d.2 }
  else if build_tests && (d.2.fail_size ≠ 0 && decide (d.2.fail_size < bytes)) then
    { ret := none, passed_through := false, free_called := false,
      state := d.2 }
  else
    { ret := some bytes, passed_through := true, free_called := false,
      state := d.2 }

/-- Translation of dbus_realloc (dbus-memory.c:421-473).  memory is the
input block (none models NULL).  With bytes = 0 the block is released
through dbus_free and NULL returned; on the injected-failure path the
function returns NULL without touching the block. -/
def dbus_realloc (build_tests : Bool) (s : MallocState)
    (memory : Option Nat) (bytes : Nat) : AllocResult :=
  let d := if build_tests then _dbus_decrement_fail_alloc_counter s
           else (false, s)
  if d.1 then
    { ret := none, passed_through := false, free_called := false,
      state := d.2 }
  else if bytes = 0 then
    { ret := none, passed_through := false, free_called := true,
      state := d.2 }
  else if build_tests && (d.2.fail_size ≠ 0 && decide (d.2.fail_size < bytes)) then
    { ret := none, passed_through := false, free_called := false,
      state := d.2 }
  else
    { ret := some bytes, passed_through := true,
      free_called := memory.isSome, state := d.2 }

/-- One call of the debug-counted allocation API, as counted by the
DBUS_MALLOC_FAIL_NTH harness: dbus_malloc, dbus_malloc0 or dbus_realloc
with the given request size (and input block for realloc). -/
inductive AllocCall where
  | malloc (bytes : Nat)
  | malloc0 (bytes : Nat)
  | realloc (memory : Option Nat) (bytes : Nat)
deriving DecidableEq

/-- The requested size of an allocation call. -/
def AllocCall.bytes : AllocCall → Nat
  | AllocCall.malloc b => b
  | AllocCall.malloc0 b => b
  | AllocCall.realloc _ b => b

/-- Run one allocation call against the debug state (test build). -/
def run_alloc_call (s : MallocState) : AllocCall → AllocResult
  | AllocCall.malloc b => dbus_malloc true s b
  | AllocCall.malloc0 b => dbus_malloc0 true s b
  | AllocCall.realloc m b => dbus_realloc true s m b

/-- Run a sequence of allocation calls in a test build, threading the
process-wide debug state, and collect the result of each call. -/
def run_alloc_calls (s : MallocState) :
    List AllocCall → List AllocResult
  | [] => []
  | c :: rest =>
      let r := run_alloc_call s c
      r :: run_alloc_calls r.state rest

/-- The combined mutable state a connected transport owns: the transport
struct, its message loader, and the inbound message queue of the
queue. -/
structure TState where
  t : DBusTransport
  loader : Loader
  conn_queue : List Nat
deriving DecidableEq

/-- One transport operation of dbus-transport.c, with the oracle inputs
its collaborators supply.  clearSendCred and clearRecvCred are
modelled from the spec: the credential exchange that clears
send_credentials_pending / receive_credentials_pending lives in the
socket backend (dbus-transport-unix.c, not part of this repository);
spec section 3 states each flag transitions true to false exactly once
during the handshake, so the effect of the backend is exactly the clearing of
one flag. -/
inductive TransportOp where
  | isAuth (o : AuthOracle)
  | disconnect
  | dispatchStatus (e : DispatchEnv)
  | queueMessages (envs : List QueueEnv)
  | setConnection (c : Nat) (hook_ok : Bool)
  | setMaxReceivedSize (n : Nat)
  | setUnixUserFunction (present : Bool)
  | clearSendCred
  | clearRecvCred
deriving DecidableEq

/-- Apply one transport operation to the combined state. -/
def stepOp (s : TState) : TransportOp → TState
  | TransportOp.isAuth o =>
      { s with t := (_dbus_transport_get_is_authenticated s.t o).t }
  | TransportOp.disconnect =>
      { s with t := _dbus_transport_disconnect s.t }
  | TransportOp.dispatchStatus e =>
      let r := _dbus_transport_get_dispatch_status s.t s.loader e
      { s with t := r.t, loader := r.loader }
  | TransportOp.queueMessages envs =>
      let r := _dbus_transport_queue_messages s.t s.loader s.conn_queue envs
      { t := r.t, loader := r.loader, conn_queue := r.conn_queue }
  | TransportOp.setConnection c hook_ok =>
      { s with t := (_dbus_transport_set_connection s.t c hook_ok).2 }
  | TransportOp.setMaxReceivedSize n =>
      { s with t := { s.t with max_live_messages_size := n } }
  | TransportOp.setUnixUserFunction present =>
      { s with t := { s.t with has_unix_user_function := present } }
  | TransportOp.clearSendCred =>
      { s with t := { s.t with send_credentials_pending := false } }
  | TransportOp.clearRecvCred =>
      { s with t := { s.t with receive_credentials_pending := false } }

/-- Run a sequence of transport operations. -/
def runOps (s : TState) : List TransportOp → TState
  | [] => s
  | op :: rest => runOps (stepOp s op) rest

/-- The credential/authentication invariant of spec section 3: the
authenticated flag is observable only with both credential-pending flags
clear. -/
def credInvariant (t : DBusTransport) : Prop :=
  t.authenticated = true →
    t.send_credentials_pending = false ∧
      t.receive_credentials_pending = false

instance (t : DBusTransport) : Decidable (credInvariant t) := by
  unfold credInvariant; infer_instance

lemma disconnect_eq (t : DBusTransport) :
    _dbus_transport_disconnect t = { t with disconnected := true } := by
  unfold _dbus_transport_disconnect
  split
  · cases t; simp_all
  · rfl

lemma disconnect_send (t : DBusTransport) :
    (_dbus_transport_disconnect t).send_credentials_pending =
      t.send_credentials_pending := by
  rw [disconnect_eq]

lemma disconnect_recv (t : DBusTransport) :
    (_dbus_transport_disconnect t).receive_credentials_pending =
      t.receive_credentials_pending := by
  rw [disconnect_eq]

lemma disconnect_auth (t : DBusTransport) :
    (_dbus_transport_disconnect t).authenticated = t.authenticated := by
  rw [disconnect_eq]

lemma disconnect_disconnected (t : DBusTransport) :
    (_dbus_transport_disconnect t).disconnected = true := by
  rw [disconnect_eq]

lemma server_check_send (t : DBusTransport) (maybe : Bool) (o : AuthOracle) :
    (is_authenticated_server_check t maybe o).t.send_credentials_pending =
      t.send_credentials_pending := by
  unfold is_authenticated_server_check
  split_ifs <;> simp [disconnect_send]

lemma server_check_recv (t : DBusTransport) (maybe : Bool) (o : AuthOracle) :
    (is_authenticated_server_check t maybe o).t.receive_credentials_pending =
      t.receive_credentials_pending := by
  unfold is_authenticated_server_check
  split_ifs <;> simp [disconnect_recv]

lemma server_check_auth (t : DBusTransport) (maybe : Bool) (o : AuthOracle) :
    (is_authenticated_server_check t maybe o).t.authenticated =
        t.authenticated ∨
      (is_authenticated_server_check t maybe o).t.authenticated = maybe := by
  unfold is_authenticated_server_check
  split_ifs <;> simp [disconnect_auth]

lemma server_check_ret (t : DBusTransport) (maybe : Bool) (o : AuthOracle) :
    (is_authenticated_server_check t maybe o).ret = maybe ∨
      (is_authenticated_server_check t maybe o).ret = false := by
  unfold is_authenticated_server_check
  split_ifs <;> simp

lemma server_check_refs (t : DBusTransport) (maybe : Bool) (o : AuthOracle) :
    (is_authenticated_server_check t maybe o).conn_refs = 1 ∧
      (is_authenticated_server_check t maybe o).conn_unrefs = 1 := by
  unfold is_authenticated_server_check
  split_ifs <;> simp

lemma is_auth_send (t : DBusTransport) (o : AuthOracle) :
    (_dbus_transport_get_is_authenticated t o).t.send_credentials_pending =
      t.send_credentials_pending := by
  unfold _dbus_transport_get_is_authenticated
  cases hg : t.expected_guid <;>
    simp only [hg] <;> split_ifs <;>
      simp [server_check_send, disconnect_send]

lemma is_auth_recv (t : DBusTransport) (o : AuthOracle) :
    (_dbus_transport_get_is_authenticated t o).t.receive_credentials_pending =
      t.receive_credentials_pending := by
  unfold _dbus_transport_get_is_authenticated
  cases hg : t.expected_guid <;>
    simp only [hg] <;> split_ifs <;>
      simp [server_check_recv, disconnect_recv]

lemma is_auth_auth_mono (t : DBusTransport) (o : AuthOracle)
    (h : t.authenticated = true) :
    (_dbus_transport_get_is_authenticated t o).t.authenticated = true := by
  unfold _dbus_transport_get_is_authenticated
  simp [h]

lemma is_auth_unchanged_of_dead (t : DBusTransport) (o : AuthOracle)
    (hd : t.disconnected = true) (ha : t.authenticated = false) :
    _dbus_transport_get_is_authenticated t o =
      { ret := false, t := t, conn_refs := 0, conn_unrefs := 0 } := by
  unfold _dbus_transport_get_is_authenticated
  simp [hd, ha]

lemma maybe_auth_true_flags (t : DBusTransport) (o : AuthOracle)
    (h : maybe_authenticated_after_work t o = true) :
    t.send_credentials_pending = false ∧
      t.receive_credentials_pending = false := by
  unfold maybe_authenticated_after_work at h
  cases o.do_work <;> simp_all

lemma server_check_credInv (t : DBusTransport) (maybe : Bool)
    (o : AuthOracle) (hinv : credInvariant t)
    (hm : maybe = true →
      t.send_credentials_pending = false ∧
        t.receive_credentials_pending = false) :
    credInvariant (is_authenticated_server_check t maybe o).t := by
  intro hauth
  rw [server_check_send, server_check_recv]
  rcases server_check_auth t maybe o with h | h
  · exact hinv (h.symm.trans hauth)
  · exact hm (h.symm.trans hauth)

lemma is_auth_credInv (t : DBusTransport) (o : AuthOracle)
    (hinv : credInvariant t) :
    credInvariant (_dbus_transport_get_is_authenticated t o).t := by
  unfold _dbus_transport_get_is_authenticated
  split_ifs <;>
    first
      | exact hinv
      | exact server_check_credInv _ _ _ hinv
          (fun h => maybe_auth_true_flags t o h)
      | (cases hg : t.expected_guid <;> simp only [hg] <;>
          (try split_ifs) <;>
          first
            | exact hinv
            | exact server_check_credInv _ _ _ hinv
                (fun h => maybe_auth_true_flags t o h)
            | (intro hauth; rw [disconnect_auth] at hauth; simp_all))

lemma server_check_ret_true (t : DBusTransport) (maybe : Bool)
    (o : AuthOracle)
    (h : (is_authenticated_server_check t maybe o).ret = true) :
    maybe = true := by
  rcases server_check_ret t maybe o with hr | hr
  · exact (h.symm.trans hr).symm
  · rw [h] at hr; cases hr

lemma is_auth_ret_flags (t : DBusTransport) (o : AuthOracle)
    (hinv : credInvariant t)
    (h : (_dbus_transport_get_is_authenticated t o).ret = true) :
    t.send_credentials_pending = false ∧
      t.receive_credentials_pending = false := by
  unfold _dbus_transport_get_is_authenticated at h
  split_ifs at h <;>
    first
      | exact hinv (by assumption)
      | exact maybe_auth_true_flags t o (server_check_ret_true _ _ _ h)
      | (cases hg : t.expected_guid <;> simp only [hg] at h <;>
          (try split_ifs at h) <;>
          first
            | exact maybe_auth_true_flags t o (server_check_ret_true _ _ _ h)
            | simp at h)

lemma dispatch_tail_send (t : DBusTransport) (l : Loader)
    (e : DispatchEnv) :
    (dispatch_status_tail t l e).t.send_credentials_pending =
      t.send_credentials_pending := by
  unfold dispatch_status_tail
  split_ifs <;> simp

lemma dispatch_tail_recv (t : DBusTransport) (l : Loader)
    (e : DispatchEnv) :
    (dispatch_status_tail t l e).t.receive_credentials_pending =
      t.receive_credentials_pending := by
  unfold dispatch_status_tail
  split_ifs <;> simp

lemma dispatch_tail_auth (t : DBusTransport) (l : Loader)
    (e : DispatchEnv) :
    (dispatch_status_tail t l e).t.authenticated = t.authenticated := by
  unfold dispatch_status_tail
  split_ifs <;> simp

lemma dispatch_tail_credInv (t : DBusTransport) (l : Loader)
    (e : DispatchEnv) (hinv : credInvariant t) :
    credInvariant (dispatch_status_tail t l e).t := by
  intro hauth
  rw [dispatch_tail_send, dispatch_tail_recv]
  exact hinv ((dispatch_tail_auth t l e).symm.trans hauth)

lemma dispatch_send (t : DBusTransport) (l : Loader) (e : DispatchEnv) :
    (_dbus_transport_get_dispatch_status t l e).t.send_credentials_pending =
      t.send_credentials_pending := by
  unfold _dbus_transport_get_dispatch_status
  split_ifs <;> simp [dispatch_tail_send, is_auth_send]

lemma dispatch_recv (t : DBusTransport) (l : Loader) (e : DispatchEnv) :
    (_dbus_transport_get_dispatch_status t l e).t.receive_credentials_pending =
      t.receive_credentials_pending := by
  unfold _dbus_transport_get_dispatch_status
  split_ifs <;> simp [dispatch_tail_recv, is_auth_recv]

lemma dispatch_auth_mono (t : DBusTransport) (l : Loader)
    (e : DispatchEnv) (h : t.authenticated = true) :
    (_dbus_transport_get_dispatch_status t l e).t.authenticated = true := by
  unfold _dbus_transport_get_dispatch_status
  split_ifs <;>
    first
      | exact h
      | simp [dispatch_tail_auth, is_auth_auth_mono, h,
          is_auth_auth_mono _ _ (is_auth_auth_mono _ _ h)]

lemma dispatch_credInv (t : DBusTransport) (l : Loader) (e : DispatchEnv)
    (hinv : credInvariant t) :
    credInvariant (_dbus_transport_get_dispatch_status t l e).t := by
  unfold _dbus_transport_get_dispatch_status
  split_ifs <;>
    first
      | exact hinv
      | exact is_auth_credInv _ _ hinv
      | exact is_auth_credInv _ _ (is_auth_credInv _ _ hinv)
      | exact dispatch_tail_credInv _ _ _ (is_auth_credInv _ _ hinv)
      | exact dispatch_tail_credInv _ _ _
          (is_auth_credInv _ _ (is_auth_credInv _ _ hinv))

lemma disconnect_credInv (t : DBusTransport) (hinv : credInvariant t) :
    credInvariant (_dbus_transport_disconnect t) := by
  intro hauth
  rw [disconnect_send, disconnect_recv]
  exact hinv ((disconnect_auth t).symm.trans hauth)

lemma queue_loop_t_pres (P : DBusTransport → Prop)
    (hP : ∀ t l e, P t → P ((_dbus_transport_get_dispatch_status t l e).t)) :
    ∀ (envs : List QueueEnv) (t : DBusTransport) (l : Loader)
      (c : List Nat), P t → P (queue_messages_loop t l c envs).2.1 := by
  intro envs
  induction envs with
  | nil => intro t l c h; exact h
  | cons e rest ih =>
      intro t l c h
      simp only [queue_messages_loop]
      split
      · split
        · exact hP t l e.denv h
        · split
          · exact ih _ _ _ (hP t l e.denv h)
          · exact hP t l e.denv h
      · exact hP t l e.denv h

lemma qm_t_pres (P : DBusTransport → Prop)
    (hP : ∀ t l e, P t → P ((_dbus_transport_get_dispatch_status t l e).t))
    (hD : ∀ t, P t → P (_dbus_transport_disconnect t))
    (t : DBusTransport) (l : Loader) (c : List Nat)
    (envs : List QueueEnv) (h : P t) :
    P (_dbus_transport_queue_messages t l c envs).t := by
  have hl := queue_loop_t_pres P hP envs t l c h
  show P (if (queue_messages_loop t l c envs).2.2.1.corrupted then
            _dbus_transport_disconnect (queue_messages_loop t l c envs).2.1
          else (queue_messages_loop t l c envs).2.1)
  split_ifs
  · exact hD _ hl
  · exact hl

lemma step_credInv (s : TState) (op : TransportOp)
    (h : credInvariant s.t) : credInvariant (stepOp s op).t := by
  cases op with
  | isAuth o => exact is_auth_credInv _ _ h
  | disconnect => exact disconnect_credInv _ h
  | dispatchStatus e => exact dispatch_credInv _ _ _ h
  | queueMessages envs =>
      exact qm_t_pres credInvariant (fun t l e => dispatch_credInv t l e)
        (fun t ht => disconnect_credInv t ht) _ _ _ _ h
  | setConnection c ok => cases ok <;> exact h
  | setMaxReceivedSize n => exact h
  | setUnixUserFunction b => exact h
  | clearSendCred => exact fun hauth => ⟨rfl, (h hauth).2⟩
  | clearRecvCred => exact fun hauth => ⟨(h hauth).1, rfl⟩

lemma step_auth_mono (s : TState) (op : TransportOp)
    (h : s.t.authenticated = true) :
    (stepOp s op).t.authenticated = true := by
  cases op with
  | isAuth o => exact is_auth_auth_mono _ _ h
  | disconnect => rw [stepOp, disconnect_auth]; exact h
  | dispatchStatus e => exact dispatch_auth_mono _ _ _ h
  | queueMessages envs =>
      exact qm_t_pres (fun t => t.authenticated = true)
        (fun t l e ht => dispatch_auth_mono t l e ht)
        (fun t ht => (disconnect_auth t).trans ht) _ _ _ _ h
  | setConnection c ok => cases ok <;> exact h
  | setMaxReceivedSize n => exact h
  | setUnixUserFunction b => exact h
  | clearSendCred => exact h
  | clearRecvCred => exact h

lemma runOps_append (s : TState) (xs ys : List TransportOp) :
    runOps s (xs ++ ys) = runOps (runOps s xs) ys := by
  induction xs generalizing s with
  | nil => rfl
  | cons x xs ih => simp only [List.cons_append, runOps]; exact ih _

lemma runOps_credInv (ops : List TransportOp) :
    ∀ s : TState, credInvariant s.t → credInvariant (runOps s ops).t := by
  induction ops with
  | nil => exact fun s h => h
  | cons op rest ih =>
      exact fun s h => ih _ (step_credInv s op h)

lemma runOps_auth_mono (ops : List TransportOp) :
    ∀ s : TState, s.t.authenticated = true →
      (runOps s ops).t.authenticated = true := by
  induction ops with
  | nil => exact fun s h => h
  | cons op rest ih =>
      exact fun s h => ih _ (step_auth_mono s op h)

/-- A transport that has been disconnected without ever authenticating:
the terminal state of the authentication-failure paths. -/
def deadState (t : DBusTransport) : Prop :=
  t.disconnected = true ∧ t.authenticated = false

lemma disconnect_of_disconnected (t : DBusTransport)
    (h : t.disconnected = true) : _dbus_transport_disconnect t = t := by
  unfold _dbus_transport_disconnect
  rw [if_pos h]

lemma dispatch_of_dead (t : DBusTransport) (l : Loader) (e : DispatchEnv)
    (h : deadState t) :
    (_dbus_transport_get_dispatch_status t l e).t = t ∧
      (_dbus_transport_get_dispatch_status t l e).loader = l ∧
      (_dbus_transport_get_dispatch_status t l e).status ≠
        DBusDispatchStatus.DATA_REMAINS := by
  unfold _dbus_transport_get_dispatch_status
  simp only [is_auth_unchanged_of_dead t e.auth1 h.1 h.2,
    is_auth_unchanged_of_dead t e.auth2 h.1 h.2]
  split_ifs <;> simp_all

lemma dead_dispatch_pres (t : DBusTransport) (l : Loader)
    (e : DispatchEnv) (h : deadState t) :
    deadState (_dbus_transport_get_dispatch_status t l e).t := by
  rw [(dispatch_of_dead t l e h).1]; exact h

lemma dead_disconnect_pres (t : DBusTransport) (h : deadState t) :
    deadState (_dbus_transport_disconnect t) := by
  rw [disconnect_of_disconnected t h.1]; exact h

lemma step_dead (s : TState) (op : TransportOp) (h : deadState s.t) :
    deadState (stepOp s op).t := by
  cases op with
  | isAuth o =>
      show deadState (_dbus_transport_get_is_authenticated s.t o).t
      rw [is_auth_unchanged_of_dead s.t o h.1 h.2]
      exact h
  | disconnect => exact dead_disconnect_pres _ h
  | dispatchStatus e => exact dead_dispatch_pres _ _ _ h
  | queueMessages envs =>
      exact qm_t_pres deadState (fun t l e ht => dead_dispatch_pres t l e ht)
        (fun t ht => dead_disconnect_pres t ht) _ _ _ _ h
  | setConnection c ok => cases ok <;> exact h
  | setMaxReceivedSize n => exact h
  | setUnixUserFunction b => exact h
  | clearSendCred => exact ⟨h.1, h.2⟩
  | clearRecvCred => exact ⟨h.1, h.2⟩

lemma runOps_dead (ops : List TransportOp) :
    ∀ s : TState, deadState s.t → deadState (runOps s ops).t := by
  induction ops with
  | nil => exact fun s h => h
  | cons op rest ih => exact fun s h => ih _ (step_dead s op h)

lemma init_base_ok_fields (pre : DBusTransport)
    (server_guid address : Option String) (e : InitEnv)
    (h : (_dbus_transport_init_base pre server_guid address e).ok = true) :
    (_dbus_transport_init_base pre server_guid address e).t.refcount = 1 ∧
    (_dbus_transport_init_base pre server_guid address e).t.authenticated
        = false ∧
    (_dbus_transport_init_base pre server_guid address e).t.disconnected
        = false ∧
    (_dbus_transport_init_base pre server_guid address e).t.is_server
        = server_guid.isSome ∧
    (_dbus_transport_init_base pre server_guid address
        e).t.send_credentials_pending = !server_guid.isSome ∧
    (_dbus_transport_init_base pre server_guid address
        e).t.receive_credentials_pending = server_guid.isSome ∧
    (_dbus_transport_init_base pre server_guid address
        e).t.max_live_messages_size = 66060288 ∧
    (_dbus_transport_init_base pre server_guid address e).released = [] := by
  unfold _dbus_transport_init_base at h ⊢
  split_ifs at h ⊢ <;> simp_all

/-- Claim C1: after a successful init_base, along every sequence of
transport operations the authenticated flag is never observable true
while either credentials-pending flag is true (the credential invariant
holds at every reachable state), and authenticated is monotone: once true
at some reachable state it remains true under any further operations, so
it transitions false to true at most once and never reverts before
finalisation. -/
theorem C1_authenticated_monotone_and_guarded (pre : DBusTransport)
    (server_guid address : Option String) (ie : InitEnv)
    (hok : (_dbus_transport_init_base pre server_guid address ie).ok = true)
    (l0 : Loader) (c0 : List Nat) (ops extra : List TransportOp) :
    credInvariant
      (runOps
        ⟨(_dbus_transport_init_base pre server_guid address ie).t, l0, c0⟩
        ops).t ∧
    ((runOps
        ⟨(_dbus_transport_init_base pre server_guid address ie).t, l0, c0⟩
        ops).t.authenticated = true →
      (runOps
        ⟨(_dbus_transport_init_base pre server_guid address ie).t, l0, c0⟩
        (ops ++ extra)).t.authenticated = true) := by
  have hf := init_base_ok_fields pre server_guid address ie hok
  constructor
  · exact runOps_credInv ops _
      (fun hauth => absurd (hf.2.1.symm.trans hauth) Bool.false_ne_true)
  · intro hauth
    rw [runOps_append]
    exact runOps_auth_mono extra _ hauth

/-- Witness for C1 at a concrete successful construction and a concrete
operation trace. -/
theorem C1_witness :
    (_dbus_transport_init_base
        { refcount := 0, connection := none, authenticated := true,
          disconnected := false, is_server := false,
          send_credentials_pending := false,
          receive_credentials_pending := false, address := none,
          expected_guid := none, unused_bytes_recovered := false,
          max_live_messages_size := 0, has_unix_user_function := false,
          cred_pid := 0, cred_uid := 0, cred_gid := 0 }
        none (some "tcp:host=h") ⟨true, true, true, true⟩).ok = true ∧
    credInvariant
      (runOps
        ⟨(_dbus_transport_init_base
            { refcount := 0, connection := none, authenticated := true,
              disconnected := false, is_server := false,
              send_credentials_pending := false,
              receive_credentials_pending := false, address := none,
              expected_guid := none, unused_bytes_recovered := false,
              max_live_messages_size := 0, has_unix_user_function := false,
              cred_pid := 0, cred_uid := 0, cred_gid := 0 }
            none (some "tcp:host=h") ⟨true, true, true, true⟩).t,
          ⟨[], false⟩, []⟩
        [TransportOp.clearSendCred]).t :=
  ⟨by decide,
   (C1_authenticated_monotone_and_guarded _ none (some "tcp:host=h")
      ⟨true, true, true, true⟩ (by decide) ⟨[], false⟩ []
      [TransportOp.clearSendCred] []).1⟩

/-- Claim C3: authentication failure disconnects.  Part 1: on a connected
client transport with credentials exchanged and the Auth reporting
AUTHENTICATED, an expected_guid differing from the GUID of the server makes
is_authenticated disconnect the transport and return false, leaving it
unauthenticated.  Parts 2 and 3: the same holds on the server side when
the unix_user_function rejects the peer uid, and when (with no user
function installed) the peer credentials do not match those of the process itself.
Part 4: from any such dead state (disconnected and not authenticated), no
sequence of transport operations can ever make get_dispatch_status report
DATA_REMAINS, so no messages are exposed. -/
theorem C3_auth_failure_disconnects :
    (∀ (t : DBusTransport) (o : AuthOracle) (g : String),
      t.authenticated = false → t.disconnected = false →
      t.send_credentials_pending = false →
      t.receive_credentials_pending = false →
      o.do_work = DBusAuthState.AUTHENTICATED →
      t.is_server = false → t.expected_guid = some g →
      g ≠ o.server_guid →
      (_dbus_transport_get_is_authenticated t o).ret = false ∧
        (_dbus_transport_get_is_authenticated t o).t.disconnected = true ∧
        (_dbus_transport_get_is_authenticated t o).t.authenticated
          = false) ∧
    (∀ (t : DBusTransport) (o : AuthOracle),
      t.authenticated = false → t.disconnected = false →
      t.send_credentials_pending = false →
      t.receive_credentials_pending = false →
      o.do_work = DBusAuthState.AUTHENTICATED →
      t.is_server = true → t.has_unix_user_function = true →
      o.on_windows = false → o.unix_allow = false →
      (_dbus_transport_get_is_authenticated t o).ret = false ∧
        (_dbus_transport_get_is_authenticated t o).t.disconnected = true ∧
        (_dbus_transport_get_is_authenticated t o).t.authenticated
          = false) ∧
    (∀ (t : DBusTransport) (o : AuthOracle),
      t.authenticated = false → t.disconnected = false →
      t.send_credentials_pending = false →
      t.receive_credentials_pending = false →
      o.do_work = DBusAuthState.AUTHENTICATED →
      t.is_server = true → t.has_unix_user_function = false →
      o.creds_match = false →
      (_dbus_transport_get_is_authenticated t o).ret = false ∧
        (_dbus_transport_get_is_authenticated t o).t.disconnected = true ∧
        (_dbus_transport_get_is_authenticated t o).t.authenticated
          = false) ∧
    (∀ (t : DBusTransport), deadState t →
      ∀ (l : Loader) (c : List Nat) (ops : List TransportOp)
        (e : DispatchEnv),
        (_dbus_transport_get_dispatch_status (runOps ⟨t, l, c⟩ ops).t
            (runOps ⟨t, l, c⟩ ops).loader e).status ≠
          DBusDispatchStatus.DATA_REMAINS) := by
  refine ⟨?_, ?_, ?_, ?_⟩
  · intro t o g ha hd hs hr hw hsrv hg hne
    unfold _dbus_transport_get_is_authenticated
      maybe_authenticated_after_work
    simp [ha, hd, hs, hr, hw, hsrv, hg, hne, disconnect_disconnected,
      disconnect_auth]
  · intro t o ha hd hs hr hw hsrv huf hwin hallow
    unfold _dbus_transport_get_is_authenticated
      is_authenticated_server_check maybe_authenticated_after_work
    simp [ha, hd, hs, hr, hw, hsrv, huf, hwin, hallow,
      disconnect_disconnected, disconnect_auth]
  · intro t o ha hd hs hr hw hsrv huf hmatch
    unfold _dbus_transport_get_is_authenticated
      is_authenticated_server_check maybe_authenticated_after_work
    simp [ha, hd, hs, hr, hw, hsrv, huf, hmatch,
      disconnect_disconnected, disconnect_auth]
  · intro t hdead l c ops e
    exact (dispatch_of_dead _ _ e (runOps_dead ops ⟨t, l, c⟩ hdead)).2.2

/-- Witness for C3 at a concrete client transport with a GUID
mismatch. -/
theorem C3_witness :
    (_dbus_transport_get_is_authenticated
      { refcount := 1, connection := some 1, authenticated := false,
        disconnected := false, is_server := false,
        send_credentials_pending := false,
        receive_credentials_pending := false, address := some "a",
        expected_guid := some "g1", unused_bytes_recovered := false,
        max_live_messages_size := 66060288,
        has_unix_user_function := false, cred_pid := -1, cred_uid := -1,
        cred_gid := -1 }
      { do_work := DBusAuthState.AUTHENTICATED, server_guid := "g2",
        strdup_ok := true, unix_allow := true, creds_match := true,
        on_windows := false }).ret = false ∧
    (_dbus_transport_get_is_authenticated
      { refcount := 1, connection := some 1, authenticated := false,
        disconnected := false, is_server := false,
        send_credentials_pending := false,
        receive_credentials_pending := false, address := some "a",
        expected_guid := some "g1", unused_bytes_recovered := false,
        max_live_messages_size := 66060288,
        has_unix_user_function := false, cred_pid := -1, cred_uid := -1,
        cred_gid := -1 }
      { do_work := DBusAuthState.AUTHENTICATED, server_guid := "g2",
        strdup_ok := true, unix_allow := true, creds_match := true,
        on_windows := false }).t.disconnected = true ∧
    (_dbus_transport_get_is_authenticated
      { refcount := 1, connection := some 1, authenticated := false,
        disconnected := false, is_server := false,
        send_credentials_pending := false,
        receive_credentials_pending := false, address := some "a",
        expected_guid := some "g1", unused_bytes_recovered := false,
        max_live_messages_size := 66060288,
        has_unix_user_function := false, cred_pid := -1, cred_uid := -1,
        cred_gid := -1 }
      { do_work := DBusAuthState.AUTHENTICATED, server_guid := "g2",
        strdup_ok := true, unix_allow := true, creds_match := true,
        on_windows := false }).t.authenticated = false :=
  C3_auth_failure_disconnects.1 _ _ "g1" rfl rfl rfl rfl rfl rfl rfl
    (by decide)

/-- Claim C4 (code bug): on the client path where expected_guid is NULL
and duplicating the server GUID fails for lack of memory
(dbus-transport.c:550-556), is_authenticated returns false having taken
the paranoid connection reference at entry (one ref) but without
releasing it (zero unrefs): the paranoid reference leaks on this return
path, contradicting the claimed pairing on every return path. -/
theorem C4_paranoid_ref_leak_on_strdup_oom :
    (_dbus_transport_get_is_authenticated
      { refcount := 1, connection := some 1, authenticated := false,
        disconnected := false, is_server := false,
        send_credentials_pending := false,
        receive_credentials_pending := false, address := some "a",
        expected_guid := none, unused_bytes_recovered := false,
        max_live_messages_size := 66060288,
        has_unix_user_function := false, cred_pid := -1, cred_uid := -1,
        cred_gid := -1 }
      { do_work := DBusAuthState.AUTHENTICATED, server_guid := "g1",
        strdup_ok := false, unix_allow := true, creds_match := true,
        on_windows := false }).ret = false ∧
    (_dbus_transport_get_is_authenticated
      { refcount := 1, connection := some 1, authenticated := false,
        disconnected := false, is_server := false,
        send_credentials_pending := false,
        receive_credentials_pending := false, address := some "a",
        expected_guid := none, unused_bytes_recovered := false,
        max_live_messages_size := 66060288,
        has_unix_user_function := false, cred_pid := -1, cred_uid := -1,
        cred_gid := -1 }
      { do_work := DBusAuthState.AUTHENTICATED, server_guid := "g1",
        strdup_ok := false, unix_allow := true, creds_match := true,
        on_windows := false }).conn_refs = 1 ∧
    (_dbus_transport_get_is_authenticated
      { refcount := 1, connection := some 1, authenticated := false,
        disconnected := false, is_server := false,
        send_credentials_pending := false,
        receive_credentials_pending := false, address := some "a",
        expected_guid := none, unused_bytes_recovered := false,
        max_live_messages_size := 66060288,
        has_unix_user_function := false, cred_pid := -1, cred_uid := -1,
        cred_gid := -1 }
      { do_work := DBusAuthState.AUTHENTICATED, server_guid := "g1",
        strdup_ok := false, unix_allow := true, creds_match := true,
        on_windows := false }).conn_unrefs = 0 := by
  decide

set_option maxHeartbeats 4000000 in
/-- Claim C2: the dispatch-status computation of the source equals, on
every transport, loader and environment, the five-bullet
algorithm: COMPLETE at the live-counter threshold; otherwise when not
authenticated, one Auth step with NEED_MEMORY on WaitingForMemory and
COMPLETE when still not authenticated; otherwise unused-bytes recovery
with NEED_MEMORY on failure and the flag set on success; then loader
queueing with NEED_MEMORY on failure; finally DATA_REMAINS exactly when
a message can be peeked. -/
theorem C2_dispatch_status_algorithm (t : DBusTransport) (l : Loader)
    (e : DispatchEnv) :
    _dbus_transport_get_dispatch_status t l e =
      dispatch_status_spec t l e := by
  unfold _dbus_transport_get_dispatch_status dispatch_status_spec
    dispatch_status_tail
  by_cases hc : t.max_live_messages_size ≤ e.counter_value <;>
    by_cases h1 : (_dbus_transport_get_is_authenticated t e.auth1).ret
        = true <;>
    by_cases hm : e.mid_do_work = DBusAuthState.WAITING_FOR_MEMORY <;>
    by_cases h2 : (_dbus_transport_get_is_authenticated
        (_dbus_transport_get_is_authenticated t e.auth1).t e.auth2).ret
        = true <;>
    by_cases hq : e.queue_ok = true <;>
    by_cases hmsg : (loader_queue_messages l e).messages = [] <;>
    by_cases hu1 : (_dbus_transport_get_is_authenticated t
        e.auth1).t.unused_bytes_recovered = true <;>
    by_cases hu2 : (_dbus_transport_get_is_authenticated
        (_dbus_transport_get_is_authenticated t e.auth1).t
        e.auth2).t.unused_bytes_recovered = true <;>
    by_cases hrec : e.recover_ok = true <;>
    simp [hc, h1, hm, h2, hq, hmsg, hu1, hu2, hrec, Except.bind]

lemma dispatch_DR_nonempty (t : DBusTransport) (l : Loader)
    (e : DispatchEnv)
    (h : (_dbus_transport_get_dispatch_status t l e).status =
      DBusDispatchStatus.DATA_REMAINS) :
    (_dbus_transport_get_dispatch_status t l e).loader.messages ≠ [] := by
  unfold _dbus_transport_get_dispatch_status dispatch_status_tail at h ⊢
  split_ifs at h ⊢ <;> simp_all

lemma queue_loop_conn_extends (envs : List QueueEnv) :
    ∀ (t : DBusTransport) (l : Loader) (c : List Nat),
      ∃ d, (queue_messages_loop t l c envs).2.2.2 = c ++ d := by
  induction envs with
  | nil => intro t l c; exact ⟨[], by simp [queue_messages_loop]⟩
  | cons e rest ih =>
      intro t l c
      simp only [queue_messages_loop]
      split
      · cases hms :
          (_dbus_transport_get_dispatch_status t l e.denv).loader.messages
          with
        | nil => exact ⟨[], by simp⟩
        | cons m ms =>
            split_ifs
            · obtain ⟨d, hd⟩ := ih
                (_dbus_transport_get_dispatch_status t l e.denv).t
                { (_dbus_transport_get_dispatch_status t l e.denv).loader
                    with messages := ms }
                (c ++ [m])
              exact ⟨[m] ++ d, by rw [hd, List.append_assoc]⟩
            · exact ⟨[], by simp⟩
      · exact ⟨[], by simp⟩

/-- Claim C5: queue_messages returns false exactly when the final
dispatch status is NEED_MEMORY; when attaching the live-bytes counter to
the popped message fails, the message link is put back (the loader is
exactly as get_dispatch_status left it, the head message included), no
message from that iteration is delivered, and the call returns false;
when the loader reports corruption the transport is disconnected while
the return value still reflects only the final status; and messages
already delivered remain delivered (the connection queue only ever
grows by appending). -/
theorem C5_queue_messages_contract (t : DBusTransport) (l : Loader)
    (c : List Nat) (envs : List QueueEnv) :
    ((_dbus_transport_queue_messages t l c envs).ret = true ↔
      (_dbus_transport_queue_messages t l c envs).status ≠
        DBusDispatchStatus.NEED_MEMORY) ∧
    ((_dbus_transport_queue_messages t l c envs).loader.corrupted = true →
      (_dbus_transport_queue_messages t l c envs).t.disconnected
        = true) ∧
    (∃ d, (_dbus_transport_queue_messages t l c envs).conn_queue
        = c ++ d) ∧
    (∀ (e : QueueEnv) (rest : List QueueEnv),
      (_dbus_transport_get_dispatch_status t l e.denv).status =
        DBusDispatchStatus.DATA_REMAINS →
      e.counter_add_ok = false →
      (_dbus_transport_queue_messages t l c (e :: rest)).status =
          DBusDispatchStatus.NEED_MEMORY ∧
        (_dbus_transport_queue_messages t l c (e :: rest)).ret = false ∧
        (_dbus_transport_queue_messages t l c (e :: rest)).loader =
          (_dbus_transport_get_dispatch_status t l e.denv).loader ∧
        (_dbus_transport_queue_messages t l c (e :: rest)).conn_queue
          = c) := by
  refine ⟨?_, ?_, ?_, ?_⟩
  · simp only [_dbus_transport_queue_messages]
    simp [decide_eq_true_iff]
  · simp only [_dbus_transport_queue_messages]
    intro hcor
    simp only [hcor, if_pos]
    exact disconnect_disconnected _
  · simp only [_dbus_transport_queue_messages]
    exact queue_loop_conn_extends envs t l c
  · intro e rest hDR hno
    have hne := dispatch_DR_nonempty t l e.denv hDR
    simp only [_dbus_transport_queue_messages, queue_messages_loop]
    cases hms :
        (_dbus_transport_get_dispatch_status t l e.denv).loader.messages
        with
    | nil => exact absurd hms hne
    | cons m ms => simp [hDR, hms, hno]

/-- Witness for C5: a concrete counter-OOM iteration.  The transport is
authenticated with recovery done, the loader holds one 5-byte message, the
dispatch environment succeeds, and the size-counter attachment fails. -/
theorem C5_witness :
    (_dbus_transport_queue_messages
      { refcount := 1, connection := some 1, authenticated := true,
        disconnected := false, is_server := true,
        send_credentials_pending := false,
        receive_credentials_pending := false, address := none,
        expected_guid := none, unused_bytes_recovered := true,
        max_live_messages_size := 1000, has_unix_user_function := false,
        cred_pid := -1, cred_uid := -1, cred_gid := -1 }
      { messages := [5], corrupted := false } []
      [{ denv := { counter_value := 0,
                   auth1 := { do_work := DBusAuthState.AUTHENTICATED,
                              server_guid := "g", strdup_ok := true,
                              unix_allow := true, creds_match := true,
                              on_windows := false },
                   mid_do_work := DBusAuthState.WAITING_FOR_INPUT,
                   auth2 := { do_work := DBusAuthState.AUTHENTICATED,
                              server_guid := "g", strdup_ok := true,
                              unix_allow := true, creds_match := true,
                              on_windows := false },
                   recover_ok := true, queue_ok := true,
                   new_messages := [], corrupts := false },
         counter_add_ok := false }]).status =
      DBusDispatchStatus.NEED_MEMORY ∧
    (_dbus_transport_queue_messages
      { refcount := 1, connection := some 1, authenticated := true,
        disconnected := false, is_server := true,
        send_credentials_pending := false,
        receive_credentials_pending := false, address := none,
        expected_guid := none, unused_bytes_recovered := true,
        max_live_messages_size := 1000, has_unix_user_function := false,
        cred_pid := -1, cred_uid := -1, cred_gid := -1 }
      { messages := [5], corrupted := false } []
      [{ denv := { counter_value := 0,
                   auth1 := { do_work := DBusAuthState.AUTHENTICATED,
                              server_guid := "g", strdup_ok := true,
                              unix_allow := true, creds_match := true,
                              on_windows := false },
                   mid_do_work := DBusAuthState.WAITING_FOR_INPUT,
                   auth2 := { do_work := DBusAuthState.AUTHENTICATED,
                              server_guid := "g", strdup_ok := true,
                              unix_allow := true, creds_match := true,
                              on_windows := false },
                   recover_ok := true, queue_ok := true,
                   new_messages := [], corrupts := false },
         counter_add_ok := false }]).ret = false :=
  let r := (C5_queue_messages_contract
    { refcount := 1, connection := some 1, authenticated := true,
      disconnected := false, is_server := true,
      send_credentials_pending := false,
      receive_credentials_pending := false, address := none,
      expected_guid := none, unused_bytes_recovered := true,
      max_live_messages_size := 1000, has_unix_user_function := false,
      cred_pid := -1, cred_uid := -1, cred_gid := -1 }
    { messages := [5], corrupted := false } []
    [{ denv := { counter_value := 0,
                 auth1 := { do_work := DBusAuthState.AUTHENTICATED,
                            server_guid := "g", strdup_ok := true,
                            unix_allow := true, creds_match := true,
                            on_windows := false },
                 mid_do_work := DBusAuthState.WAITING_FOR_INPUT,
                 auth2 := { do_work := DBusAuthState.AUTHENTICATED,
                            server_guid := "g", strdup_ok := true,
                            unix_allow := true, creds_match := true,
                            on_windows := false },
                 recover_ok := true, queue_ok := true,
                 new_messages := [], corrupts := false },
       counter_add_ok := false }]).2.2.2
    { denv := { counter_value := 0,
                auth1 := { do_work := DBusAuthState.AUTHENTICATED,
                           server_guid := "g", strdup_ok := true,
                           unix_allow := true, creds_match := true,
                           on_windows := false },
                mid_do_work := DBusAuthState.WAITING_FOR_INPUT,
                auth2 := { do_work := DBusAuthState.AUTHENTICATED,
                           server_guid := "g", strdup_ok := true,
                           unix_allow := true, creds_match := true,
                           on_windows := false },
                recover_ok := true, queue_ok := true,
                new_messages := [], corrupts := false },
      counter_add_ok := false } [] (by decide) (by decide)
  ⟨r.1, r.2.1⟩

/-- Claim C6: init_base.  On any failure (loader, auth, counter or
address-copy construction failing) the call returns false, releases
exactly the resources acquired so far in reverse acquisition order, and
writes no field of the transport.  On success it returns true with
refcount 1, not authenticated, not disconnected, is_server from the
presence of the server GUID, both credential-pending flags derived from
is_server, nothing released, and max_live_messages_size at the 63 MiB
default (66060288 bytes). -/
theorem C6_init_base_rollback (pre : DBusTransport)
    (server_guid address : Option String) (e : InitEnv)
    (hx : server_guid.isSome = !address.isSome) :
    ((_dbus_transport_init_base pre server_guid address e).ok = false →
      (_dbus_transport_init_base pre server_guid address e).t = pre ∧
      (_dbus_transport_init_base pre server_guid address e).released =
        (_dbus_transport_init_base pre server_guid address
          e).acquired.reverse) ∧
    ((_dbus_transport_init_base pre server_guid address e).ok = true →
      (_dbus_transport_init_base pre server_guid address e).t.refcount
          = 1 ∧
      (_dbus_transport_init_base pre server_guid address
          e).t.authenticated = false ∧
      (_dbus_transport_init_base pre server_guid address
          e).t.disconnected = false ∧
      (_dbus_transport_init_base pre server_guid address e).t.is_server
          = server_guid.isSome ∧
      (_dbus_transport_init_base pre server_guid address
          e).t.send_credentials_pending = !server_guid.isSome ∧
      (_dbus_transport_init_base pre server_guid address
          e).t.receive_credentials_pending = server_guid.isSome ∧
      (_dbus_transport_init_base pre server_guid address
          e).t.max_live_messages_size = 66060288 ∧
      (_dbus_transport_init_base pre server_guid address e).released
          = []) := by
  unfold _dbus_transport_init_base
  split_ifs <;> simp_all

/-- Witness for C6: a concrete successful client-side construction. -/
theorem C6_witness :
    (_dbus_transport_init_base
      { refcount := 7, connection := none, authenticated := true,
        disconnected := true, is_server := true,
        send_credentials_pending := true,
        receive_credentials_pending := true, address := none,
        expected_guid := some "junk", unused_bytes_recovered := false,
        max_live_messages_size := 5, has_unix_user_function := true,
        cred_pid := 9, cred_uid := 9, cred_gid := 9 }
      none (some "unix:path=p") ⟨true, true, true, true⟩).t.refcount
        = 1 ∧
    (_dbus_transport_init_base
      { refcount := 7, connection := none, authenticated := true,
        disconnected := true, is_server := true,
        send_credentials_pending := true,
        receive_credentials_pending := true, address := none,
        expected_guid := some "junk", unused_bytes_recovered := false,
        max_live_messages_size := 5, has_unix_user_function := true,
        cred_pid := 9, cred_uid := 9, cred_gid := 9 }
      none (some "unix:path=p") ⟨true, true, true, true⟩).t.authenticated
        = false ∧
    (_dbus_transport_init_base
      { refcount := 7, connection := none, authenticated := true,
        disconnected := true, is_server := true,
        send_credentials_pending := true,
        receive_credentials_pending := true, address := none,
        expected_guid := some "junk", unused_bytes_recovered := false,
        max_live_messages_size := 5, has_unix_user_function := true,
        cred_pid := 9, cred_uid := 9, cred_gid := 9 }
      none (some "unix:path=p") ⟨true, true, true, true⟩).t.disconnected
        = false ∧
    (_dbus_transport_init_base
      { refcount := 7, connection := none, authenticated := true,
        disconnected := true, is_server := true,
        send_credentials_pending := true,
        receive_credentials_pending := true, address := none,
        expected_guid := some "junk", unused_bytes_recovered := false,
        max_live_messages_size := 5, has_unix_user_function := true,
        cred_pid := 9, cred_uid := 9, cred_gid := 9 }
      none (some "unix:path=p") ⟨true, true, true, true⟩).t.is_server
        = (none : Option String).isSome ∧
    (_dbus_transport_init_base
      { refcount := 7, connection := none, authenticated := true,
        disconnected := true, is_server := true,
        send_credentials_pending := true,
        receive_credentials_pending := true, address := none,
        expected_guid := some "junk", unused_bytes_recovered := false,
        max_live_messages_size := 5, has_unix_user_function := true,
        cred_pid := 9, cred_uid := 9, cred_gid := 9 }
      none (some "unix:path=p")
      ⟨true, true, true, true⟩).t.send_credentials_pending
        = !(none : Option String).isSome ∧
    (_dbus_transport_init_base
      { refcount := 7, connection := none, authenticated := true,
        disconnected := true, is_server := true,
        send_credentials_pending := true,
        receive_credentials_pending := true, address := none,
        expected_guid := some "junk", unused_bytes_recovered := false,
        max_live_messages_size := 5, has_unix_user_function := true,
        cred_pid := 9, cred_uid := 9, cred_gid := 9 }
      none (some "unix:path=p")
      ⟨true, true, true, true⟩).t.receive_credentials_pending
        = (none : Option String).isSome ∧
    (_dbus_transport_init_base
      { refcount := 7, connection := none, authenticated := true,
        disconnected := true, is_server := true,
        send_credentials_pending := true,
        receive_credentials_pending := true, address := none,
        expected_guid := some "junk", unused_bytes_recovered := false,
        max_live_messages_size := 5, has_unix_user_function := true,
        cred_pid := 9, cred_uid := 9, cred_gid := 9 }
      none (some "unix:path=p")
      ⟨true, true, true, true⟩).t.max_live_messages_size = 66060288 ∧
    (_dbus_transport_init_base
      { refcount := 7, connection := none, authenticated := true,
        disconnected := true, is_server := true,
        send_credentials_pending := true,
        receive_credentials_pending := true, address := none,
        expected_guid := some "junk", unused_bytes_recovered := false,
        max_live_messages_size := 5, has_unix_user_function := true,
        cred_pid := 9, cred_uid := 9, cred_gid := 9 }
      none (some "unix:path=p") ⟨true, true, true, true⟩).released
        = [] :=
  (C6_init_base_rollback
    { refcount := 7, connection := none, authenticated := true,
      disconnected := true, is_server := true,
      send_credentials_pending := true,
      receive_credentials_pending := true, address := none,
      expected_guid := some "junk", unused_bytes_recovered := false,
      max_live_messages_size := 5, has_unix_user_function := true,
      cred_pid := 9, cred_uid := 9, cred_gid := 9 }
    none (some "unix:path=p") ⟨true, true, true, true⟩
    (by decide)).2 (by decide)

/-- Claim C9: when the backend connection_set hook fails during
set_connection, the connection back-reference is reset to NULL before
the call returns false, so the transport ends unattached and the
one-shot precondition (connection = NULL) holds again; with the
precondition in force the failed call leaves the transport exactly as it
was.  When the hook succeeds the call returns true with the connection
attached. -/
theorem C9_set_connection_failure_detaches (t : DBusTransport)
    (connection : Nat) (hpre : t.connection = none) :
    ((_dbus_transport_set_connection t connection false).1 = false ∧
      (_dbus_transport_set_connection t connection false).2.connection
        = none ∧
      (_dbus_transport_set_connection t connection false).2 = t) ∧
    ((_dbus_transport_set_connection t connection true).1 = true ∧
      (_dbus_transport_set_connection t connection true).2.connection
        = some connection) := by
  unfold _dbus_transport_set_connection
  refine ⟨⟨by simp, by simp, ?_⟩, by simp, by simp⟩
  cases t
  simp_all

/-- Witness for C9 at a concrete unattached transport. -/
theorem C9_witness :
    (_dbus_transport_set_connection
      { refcount := 1, connection := none, authenticated := false,
        disconnected := false, is_server := false,
        send_credentials_pending := true,
        receive_credentials_pending := false, address := some "a",
        expected_guid := none, unused_bytes_recovered := false,
        max_live_messages_size := 66060288,
        has_unix_user_function := false, cred_pid := -1, cred_uid := -1,
        cred_gid := -1 }
      42 false).1 = false ∧
    (_dbus_transport_set_connection
      { refcount := 1, connection := none, authenticated := false,
        disconnected := false, is_server := false,
        send_credentials_pending := true,
        receive_credentials_pending := false, address := some "a",
        expected_guid := none, unused_bytes_recovered := false,
        max_live_messages_size := 66060288,
        has_unix_user_function := false, cred_pid := -1, cred_uid := -1,
        cred_gid := -1 }
      42 false).2.connection = none :=
  let h := (C9_set_connection_failure_detaches
    { refcount := 1, connection := none, authenticated := false,
      disconnected := false, is_server := false,
      send_credentials_pending := true,
      receive_credentials_pending := false, address := some "a",
      expected_guid := none, unused_bytes_recovered := false,
      max_live_messages_size := 66060288,
      has_unix_user_function := false, cred_pid := -1, cred_uid := -1,
      cred_gid := -1 }
    42 (by decide)).1
  ⟨h.1, h.2.1⟩

lemma open_loop_all_nh (xs : List FactoryOutcome)
    (h : ∀ x ∈ xs, x = FactoryOutcome.NOT_HANDLED) :
    transport_open_loop xs = (none, none) := by
  induction xs with
  | nil => rfl
  | cons x rest ih =>
      have hx := h x (List.mem_cons_self x rest)
      subst hx
      exact ih (fun y hy => h y (List.mem_cons_of_mem _ hy))

lemma open_loop_append_nh (xs ys : List FactoryOutcome)
    (h : ∀ x ∈ xs, x = FactoryOutcome.NOT_HANDLED) :
    transport_open_loop (xs ++ ys) = transport_open_loop ys := by
  induction xs with
  | nil => rfl
  | cons x rest ih =>
      have hx := h x (List.mem_cons_self x rest)
      subst hx
      exact ih (fun y hy => h y (List.mem_cons_of_mem _ hy))

/-- Claim C7: the opener.  Conjunct 1: the factory table is exactly
socket, platform-specific, autolaunch and, in test builds only,
debug-pipe, in that order.  Conjunct 2: a guid parameter whose
duplication fails surfaces OOM before any factory runs.  Conjunct 3:
when every factory reports NOT_HANDLED the opener synthesises the
bad-address error naming the valid method types.  Conjunct 4: for the
first factory in table order whose outcome is not NOT_HANDLED (all
earlier ones reporting NOT_HANDLED), an OK outcome yields that transport
with the guid parameter captured as expected_guid, and a BAD_ADDRESS or
DID_NOT_CONNECT outcome stops the scan and surfaces that factory
error. -/
theorem C7_opener_fixed_order_fallback :
    (open_funcs true =
        [FactoryId.socket, FactoryId.platformSpecific,
          FactoryId.autolaunch, FactoryId.debugPipe] ∧
      open_funcs false =
        [FactoryId.socket, FactoryId.platformSpecific,
          FactoryId.autolaunch]) ∧
    (∀ (build_tests : Bool) (g : String)
        (outcome : FactoryId → FactoryOutcome),
      _dbus_transport_open build_tests (some g) false outcome =
        Except.error OpenError.noMemory) ∧
    (∀ (build_tests : Bool) (guid : Option String)
        (outcome : FactoryId → FactoryOutcome),
      (∀ f ∈ open_funcs build_tests,
        outcome f = FactoryOutcome.NOT_HANDLED) →
      _dbus_transport_open build_tests guid true outcome =
        Except.error OpenError.badAddressUnknownType) ∧
    (∀ (build_tests : Bool) (guid : Option String)
        (outcome : FactoryId → FactoryOutcome)
        (l1 : List FactoryId) (f : FactoryId) (l2 : List FactoryId),
      open_funcs build_tests = l1 ++ f :: l2 →
      (∀ g ∈ l1, outcome g = FactoryOutcome.NOT_HANDLED) →
      (∀ t0 : DBusTransport, outcome f = FactoryOutcome.OK t0 →
        _dbus_transport_open build_tests guid true outcome =
          Except.ok { t0 with expected_guid := guid }) ∧
      (∀ err : Nat, outcome f = FactoryOutcome.BAD_ADDRESS err →
        _dbus_transport_open build_tests guid true outcome =
          Except.error (OpenError.factoryError err)) ∧
      (∀ err : Nat, outcome f = FactoryOutcome.DID_NOT_CONNECT err →
        _dbus_transport_open build_tests guid true outcome =
          Except.error (OpenError.factoryError err))) := by
  refine ⟨⟨rfl, rfl⟩, ?_, ?_, ?_⟩
  · intro bt g outcome
    unfold _dbus_transport_open
    simp
  · intro bt guid outcome h
    unfold _dbus_transport_open
    rw [open_loop_all_nh]
    · simp
    · intro x hx
      obtain ⟨f, hf, rfl⟩ := List.mem_map.1 hx
      exact h f hf
  · intro bt guid outcome l1 f l2 hsplit hnh
    have hloop : transport_open_loop ((open_funcs bt).map outcome) =
        transport_open_loop (outcome f :: l2.map outcome) := by
      rw [hsplit, List.map_append, List.map_cons,
        open_loop_append_nh]
      intro x hx
      obtain ⟨g, hg, rfl⟩ := List.mem_map.1 hx
      exact hnh g hg
    refine ⟨?_, ?_, ?_⟩
    · intro t0 hf
      unfold _dbus_transport_open
      rw [if_neg (by simp)]
      rw [hloop, hf]
      rfl
    · intro err hf
      unfold _dbus_transport_open
      rw [if_neg (by simp)]
      rw [hloop, hf]
      rfl
    · intro err hf
      unfold _dbus_transport_open
      rw [if_neg (by simp)]
      rw [hloop, hf]
      rfl

/-- Witness for C7: in a test build, socket and platform-specific report
NOT_HANDLED and autolaunch connects; the opener returns the autolaunch
transport with the guid parameter stored. -/
theorem C7_witness :
    _dbus_transport_open true (some "gx") true
      (fun f =>
        match f with
        | FactoryId.autolaunch =>
            FactoryOutcome.OK
              { refcount := 1, connection := none,
                authenticated := false, disconnected := false,
                is_server := false, send_credentials_pending := true,
                receive_credentials_pending := false,
                address := some "autolaunch:",
                expected_guid := none, unused_bytes_recovered := false,
                max_live_messages_size := 66060288,
                has_unix_user_function := false, cred_pid := -1,
                cred_uid := -1, cred_gid := -1 }
        | _ => FactoryOutcome.NOT_HANDLED) =
      Except.ok
        { refcount := 1, connection := none,
          authenticated := false, disconnected := false,
          is_server := false, send_credentials_pending := true,
          receive_credentials_pending := false,
          address := some "autolaunch:",
          expected_guid := some "gx", unused_bytes_recovered := false,
          max_live_messages_size := 66060288,
          has_unix_user_function := false, cred_pid := -1,
          cred_uid := -1, cred_gid := -1 } :=
  ((C7_opener_fixed_order_fallback.2.2.2 true (some "gx")
      (fun f =>
        match f with
        | FactoryId.autolaunch =>
            FactoryOutcome.OK
              { refcount := 1, connection := none,
                authenticated := false, disconnected := false,
                is_server := false, send_credentials_pending := true,
                receive_credentials_pending := false,
                address := some "autolaunch:",
                expected_guid := none, unused_bytes_recovered := false,
                max_live_messages_size := 66060288,
                has_unix_user_function := false, cred_pid := -1,
                cred_uid := -1, cred_gid := -1 }
        | _ => FactoryOutcome.NOT_HANDLED)
      [FactoryId.socket, FactoryId.platformSpecific]
      FactoryId.autolaunch [FactoryId.debugPipe]
      (by decide) (by decide)).1
    { refcount := 1, connection := none,
      authenticated := false, disconnected := false,
      is_server := false, send_credentials_pending := true,
      receive_credentials_pending := false,
      address := some "autolaunch:",
      expected_guid := none, unused_bytes_recovered := false,
      max_live_messages_size := 66060288,
      has_unix_user_function := false, cred_pid := -1,
      cred_uid := -1, cred_gid := -1 }
    rfl)

lemma decrement_preserves (s : MallocState) :
    (_dbus_decrement_fail_alloc_counter s).2.fail_counts
        = s.fail_counts ∧
      (_dbus_decrement_fail_alloc_counter s).2.fail_size = s.fail_size ∧
      (_dbus_decrement_fail_alloc_counter s).2.guards = s.guards := by
  unfold _dbus_decrement_fail_alloc_counter
  split_ifs <;> simp

lemma decrement_fail_iff (s : MallocState) :
    (_dbus_decrement_fail_alloc_counter s).1 = true ↔
      s.fail_alloc_counter ≤ 0 := by
  unfold _dbus_decrement_fail_alloc_counter
  split_ifs with h <;> simp [h]

lemma decrement_counter_fail (s : MallocState)
    (h : s.fail_alloc_counter ≤ 0) (hc : 0 ≤ s.fail_counts) :
    (_dbus_decrement_fail_alloc_counter s).2.fail_alloc_counter
      = s.fail_counts := by
  unfold _dbus_decrement_fail_alloc_counter
  rw [if_pos h]
  simp [hc]

lemma decrement_counter_pass (s : MallocState)
    (h : ¬s.fail_alloc_counter ≤ 0) :
    (_dbus_decrement_fail_alloc_counter s).2.fail_alloc_counter
      = s.fail_alloc_counter - 1 := by
  unfold _dbus_decrement_fail_alloc_counter
  rw [if_neg h]

lemma run_alloc_call_fail (s : MallocState) (c : AllocCall)
    (h : (_dbus_decrement_fail_alloc_counter s).1 = true) :
    (run_alloc_call s c).ret = none ∧
      (run_alloc_call s c).passed_through = false ∧
      (run_alloc_call s c).state =
        (_dbus_decrement_fail_alloc_counter s).2 := by
  cases c <;>
    simp [run_alloc_call, dbus_malloc, dbus_malloc0, dbus_realloc, h]

lemma run_alloc_call_pass (s : MallocState) (c : AllocCall)
    (h : (_dbus_decrement_fail_alloc_counter s).1 = false)
    (hb : 0 < c.bytes) (hfs : s.fail_size = 0) :
    (run_alloc_call s c).ret = some c.bytes ∧
      (run_alloc_call s c).passed_through = true ∧
      (run_alloc_call s c).state =
        (_dbus_decrement_fail_alloc_counter s).2 := by
  have hfs2 : (_dbus_decrement_fail_alloc_counter s).2.fail_size = 0 :=
    (decrement_preserves s).2.1.trans hfs
  have hb2 : c.bytes ≠ 0 := Nat.pos_iff_ne_zero.1 hb
  cases c <;>
    simp_all [run_alloc_call, dbus_malloc, dbus_malloc0, dbus_realloc,
      AllocCall.bytes]

lemma mod_step_eq (n j : Nat) (hn : 1 ≤ n) (h : j % (n+1) = n) :
    (j+1) % (n+1) = 0 := by
  have h1 : (1 : Nat) % (n+1) = 1 := Nat.mod_eq_of_lt (by omega)
  rw [Nat.add_mod, h, h1, Nat.mod_self]

lemma mod_step_ne (n j : Nat) (hn : 1 ≤ n) (h : j % (n+1) ≠ n) :
    (j+1) % (n+1) = j % (n+1) + 1 := by
  have h1 : (1 : Nat) % (n+1) = 1 := Nat.mod_eq_of_lt (by omega)
  have hlt : j % (n+1) < n + 1 := Nat.mod_lt _ (by omega)
  rw [Nat.add_mod, h1]
  exact Nat.mod_eq_of_lt (by omega)

lemma dvd_iff_mod_eq_n (n j : Nat) (hn : 1 ≤ n) :
    (n+1) ∣ (j+1) ↔ j % (n+1) = n := by
  rw [Nat.dvd_iff_mod_eq_zero]
  constructor
  · intro h
    by_contra hne
    rw [mod_step_ne n j hn hne] at h
    omega
  · exact mod_step_eq n j hn

lemma run_alloc_calls_spec (n : Nat) (hn : 1 ≤ n) :
    ∀ (calls : List AllocCall) (j : Nat) (s : MallocState),
      s.fail_counts = (n : Int) →
      s.fail_alloc_counter = (n : Int) - ((j % (n+1) : Nat) : Int) →
      s.fail_size = 0 → s.guards = false →
      (∀ c ∈ calls, 0 < c.bytes) →
      ∀ (k : Nat) (hk : k < (run_alloc_calls s calls).length),
        (((run_alloc_calls s calls).get ⟨k, hk⟩).ret = none ↔
          (n+1) ∣ (j + k + 1)) ∧
        (((run_alloc_calls s calls).get ⟨k, hk⟩).passed_through = true ↔
          ¬(n+1) ∣ (j + k + 1)) := by
  intro calls
  induction calls with
  | nil =>
      intro j s _ _ _ _ _ k hk
      simp [run_alloc_calls] at hk
  | cons c rest ih =>
      intro j s hfc hcounter hfs hg hb k hk
      have hmodlt : j % (n+1) < n + 1 := Nat.mod_lt _ (by omega)
      by_cases hfail : s.fail_alloc_counter ≤ 0
      · -- this call is the injected failure
        have hmod : j % (n+1) = n := by omega
        have hdvd : (n+1) ∣ (j+1) := (dvd_iff_mod_eq_n n j hn).2 hmod
        have hd : (_dbus_decrement_fail_alloc_counter s).1 = true :=
          (decrement_fail_iff s).2 hfail
        have hr := run_alloc_call_fail s c hd
        have hstate :
            (run_alloc_call s c).state.fail_alloc_counter =
              (n : Int) - (((j+1) % (n+1) : Nat) : Int) := by
          rw [hr.2.2, decrement_counter_fail s hfail (by rw [hfc]; omega),
            hfc, mod_step_eq n j hn hmod]
          simp
        cases k with
        | zero =>
            refine ⟨?_, ?_⟩
            · simp [run_alloc_calls, hr.1, hdvd]
            · simp [run_alloc_calls, hr.2.1, hdvd]
        | succ k2 =>
            have hk2 : k2 < (run_alloc_calls
                (run_alloc_call s c).state rest).length := by
              simp [run_alloc_calls] at hk
              omega
            have := ih (j+1) (run_alloc_call s c).state
              (by rw [hr.2.2, (decrement_preserves s).1, hfc])
              hstate
              (by rw [hr.2.2, (decrement_preserves s).2.1, hfs])
              (by rw [hr.2.2, (decrement_preserves s).2.2, hg])
              (fun x hx => hb x (List.mem_cons_of_mem _ hx))
              k2 hk2
            have harith : j + 1 + k2 + 1 = j + (k2 + 1) + 1 := by omega
            rw [harith] at this
            exact this
      · -- this call passes through
        have hmod : j % (n+1) ≠ n := by
          intro hcon
          rw [hcon] at hcounter
          simp at hcounter
          omega
        have hndvd : ¬(n+1) ∣ (j+1) := by
          rw [dvd_iff_mod_eq_n n j hn]
          exact hmod
        have hd : (_dbus_decrement_fail_alloc_counter s).1 = false := by
          rcases Bool.eq_false_or_eq_true
            (_dbus_decrement_fail_alloc_counter s).1 with h | h
          · exact absurd ((decrement_fail_iff s).1 h) hfail
          · exact h
        have hr := run_alloc_call_pass s c hd
          (hb c (List.mem_cons_self c rest)) hfs
        have hstate :
            (run_alloc_call s c).state.fail_alloc_counter =
              (n : Int) - (((j+1) % (n+1) : Nat) : Int) := by
          rw [hr.2.2, decrement_counter_pass s hfail, hcounter,
            mod_step_ne n j hn hmod]
          push_cast
          ring
        cases k with
        | zero =>
            refine ⟨?_, ?_⟩
            · simp [run_alloc_calls, hr.1, hndvd]
            · simp [run_alloc_calls, hr.2.1, hndvd]
        | succ k2 =>
            have hk2 : k2 < (run_alloc_calls
                (run_alloc_call s c).state rest).length := by
              simp [run_alloc_calls] at hk
              omega
            have := ih (j+1) (run_alloc_call s c).state
              (by rw [hr.2.2, (decrement_preserves s).1, hfc])
              hstate
              (by rw [hr.2.2, (decrement_preserves s).2.1, hfs])
              (by rw [hr.2.2, (decrement_preserves s).2.2, hg])
              (fun x hx => hb x (List.mem_cons_of_mem _ hx))
              k2 hk2
            have harith : j + 1 + k2 + 1 = j + (k2 + 1) + 1 := by omega
            rw [harith] at this
            exact this

/-- Counterexample to C8 as stated: with DBUS_MALLOC_FAIL_NTH=1 the claim
predicts that the 1st allocation (k·N with k=1, N=1) returns NULL, but
the first dbus_malloc call succeeds; it is the 2nd call (N+1) that
fails. -/
theorem C8_counterexample_first_call_succeeds :
    ((run_alloc_calls (malloc_debug_state_fail_nth 1)
        [AllocCall.malloc 8, AllocCall.malloc 8]).map
      (fun r => r.ret)) = [some 8, none] := by
  decide

/-- Claim C8 (amended): with DBUS_MALLOC_FAIL_NTH set to N at least 1
and the other debug variables unset, the debug allocator fails every
(N+1)-th allocation: across any sequence of nonzero-size dbus_malloc,
dbus_malloc0 and dbus_realloc calls, the k-th call (1-indexed) returns
NULL exactly when (N+1) divides k, and every other call is passed
through to the underlying allocator. -/
theorem C8_fail_every_n_plus_1 (n : Nat) (hn : 1 ≤ n)
    (calls : List AllocCall) (hb : ∀ c ∈ calls, 0 < c.bytes) (k : Nat)
    (hk : k < (run_alloc_calls (malloc_debug_state_fail_nth (n : Int))
      calls).length) :
    (((run_alloc_calls (malloc_debug_state_fail_nth (n : Int))
        calls).get ⟨k, hk⟩).ret = none ↔ (n+1) ∣ (k+1)) ∧
    (((run_alloc_calls (malloc_debug_state_fail_nth (n : Int))
        calls).get ⟨k, hk⟩).passed_through = true ↔
      ¬(n+1) ∣ (k+1)) := by
  have h := run_alloc_calls_spec n hn calls 0
    (malloc_debug_state_fail_nth (n : Int)) rfl
    (by simp [malloc_debug_state_fail_nth]) rfl rfl hb k hk
  simpa using h

/-- Witness for the amended C8: with N=2, the third call is the first
one to fail. -/
theorem C8_witness :
    ((run_alloc_calls (malloc_debug_state_fail_nth 2)
        [AllocCall.malloc 1, AllocCall.malloc0 1,
          AllocCall.realloc none 1]).get ⟨2, by decide⟩).ret = none :=
  ((C8_fail_every_n_plus_1 2 (by decide)
      [AllocCall.malloc 1, AllocCall.malloc0 1,
        AllocCall.realloc none 1]
      (by decide) 2 (by decide)).1).2 (by decide)

lemma dbus_malloc_zero_ret (bt : Bool) (s : MallocState) :
    (dbus_malloc bt s 0).ret = none := by
  simp only [dbus_malloc]
  cases bt <;> split_ifs <;> rfl

lemma dbus_malloc0_zero_ret (bt : Bool) (s : MallocState) :
    (dbus_malloc0 bt s 0).ret = none := by
  simp only [dbus_malloc0]
  cases bt <;> split_ifs <;> rfl

lemma dbus_realloc_zero_ret (bt : Bool) (s : MallocState)
    (m : Option Nat) : (dbus_realloc bt s m 0).ret = none := by
  simp only [dbus_realloc]
  cases bt <;> split_ifs <;> rfl

/-- Counterexample to C10 as stated: in a test build with the
fault-injection counter armed at zero, dbus_realloc(m, 0) returns NULL
without calling dbus_free on m, so the unconditional "frees m" part of
the claim fails on the injected-failure path. -/
theorem C10_counterexample_injected_failure_skips_free :
    (dbus_realloc true
      { fail_counts := 1, fail_alloc_counter := 0, fail_size := 0,
        guards := false } (some 4) 0).ret = none ∧
    (dbus_realloc true
      { fail_counts := 1, fail_alloc_counter := 0, fail_size := 0,
        guards := false } (some 4) 0).free_called = false := by
  decide

/-- Claim C10 (amended): zero-size requests never yield a block:
dbus_malloc(0) and dbus_malloc0(0) return NULL in every build and every
debug state, and dbus_realloc(m, 0) returns NULL; moreover dbus_realloc
(m, 0) releases m through dbus_free in every production (non-test)
build, and in a test build whenever the injected-failure counter does
not fire on the call; only the test harness injected failure path
returns NULL without the free. -/
theorem C10_zero_size_requests (bt : Bool) (s : MallocState)
    (m : Option Nat) :
    (dbus_malloc bt s 0).ret = none ∧
    (dbus_malloc0 bt s 0).ret = none ∧
    (dbus_realloc bt s m 0).ret = none ∧
    (bt = false → (dbus_realloc bt s m 0).free_called = true) ∧
    (0 < s.fail_alloc_counter →
      (dbus_realloc bt s m 0).free_called = true) := by
  refine ⟨dbus_malloc_zero_ret bt s, dbus_malloc0_zero_ret bt s,
    dbus_realloc_zero_ret bt s m, ?_, ?_⟩
  · intro hbt
    subst hbt
    rfl
  · intro hpos
    cases bt
    · rfl
    · have hd : (_dbus_decrement_fail_alloc_counter s).1 = false := by
        rcases Bool.eq_false_or_eq_true
          (_dbus_decrement_fail_alloc_counter s).1 with h | h
        · have := (decrement_fail_iff s).1 h
          omega
        · exact h
      simp [dbus_realloc, hd]

/-- Witness for the amended C10 at a concrete state and block. -/
theorem C10_witness :
    (dbus_malloc true
      { fail_counts := -1, fail_alloc_counter := 2147483647,
        fail_size := 0, guards := false } 0).ret = none ∧
    (dbus_realloc true
      { fail_counts := -1, fail_alloc_counter := 2147483647,
        fail_size := 0, guards := false } (some 9) 0).free_called
      = true :=
  let h := C10_zero_size_requests true
    { fail_counts := -1, fail_alloc_counter := 2147483647,
      fail_size := 0, guards := false } (some 9)
  ⟨h.1, h.2.2.2.2 (by decide)⟩

end DBus
